import Mathlib

/-!
Verification of the `clientv2` facade package of dpservice-go.

The package regroups the flat legacy dpservice client into a hierarchy of
resource handles and adds a functional call-option mechanism for marking
remote error codes as non-fatal.  This file shallowly embeds the package:

* Go `uint32` error codes carry no arithmetic here, so they are modelled as
  `ℕ`; likewise `vni : uint32` and `vniType : uint8` (pure pass-through).
* A Go slice distinguishes `nil` from a non-nil (possibly empty) slice; the
  `[][]uint32` value returned by `toLegacyIgnored` is modelled as
  `Option (List (List ℕ))`, `none` standing for the Go `nil` slice that
  contributes zero variadic arguments.
* A Go function value of type `CallOption` may be `nil`; it is modelled as
  `Option (callOptions → callOptions)`.
* Domain payloads (`api.LoadBalancer`, `netip.Addr`, ...) are opaque to the
  facade, which only passes references through; each is modelled as a
  distinct one-field structure.
* The legacy client is external state the facade delegates to; it is
  modelled as a record of response functions, and the act of invoking one
  legacy method is recorded as a `LegacyCall` event so that "makes exactly
  one call with these arguments" is a provable statement: every facade
  operation returns the list of legacy calls it performs together with the
  forwarded result.
-/

/-- Go uint32 error codes (opaque identifiers, no arithmetic performed). -/
abbrev ErrCode := ℕ

/-- The Go `[][]uint32` variadic ignored-codes argument: `none` is Go's nil
slice (omitted, zero variadic arguments), `some gs` a non-nil slice whose
elements are the code groups. -/
abbrev Ignored := Option (List (List ErrCode))

/-- Embeds `type callOptions struct { ignoredCodes []uint32 }`. -/
structure callOptions where
  ignoredCodes : List ErrCode
deriving DecidableEq

/-- Embeds `type CallOption func(*callOptions)`; `none` is a nil Go function
value. -/
abbrev CallOption := Option (callOptions → callOptions)

/-- A variadic `opts ...CallOption` argument list. -/
abbrev CallOpts := List CallOption

/-- Embeds `WithIgnoredCodes(codes ...uint32) CallOption`, whose returned
closure appends `codes` to the accumulated list. -/
def WithIgnoredCodes (codes : List ErrCode) : CallOption :=
  some (fun o => { o with ignoredCodes := o.ignoredCodes ++ codes })

/-- Embeds the loop body of `buildCallOptions`:
`if opt != nil { opt(&o) }` applied to one option. -/
def applyOpt (o : callOptions) (opt : CallOption) : callOptions :=
  match opt with
  | some f => f o
  | none => o

/-- Embeds `buildCallOptions(opts ...CallOption) callOptions`: fold the
options over the zero-valued configuration. -/
def buildCallOptions (opts : CallOpts) : callOptions :=
  List.foldl applyOpt { ignoredCodes := [] } opts

/-- Embeds `toLegacyIgnored(opts ...CallOption) [][]uint32`. -/
def toLegacyIgnored (opts : CallOpts) : Ignored :=
  let o := buildCallOptions opts
  if o.ignoredCodes.length = 0 then none
  else some [o.ignoredCodes]

/-- The one way the Go option mechanism could fail at runtime: invoking a
nil function value panics. -/
inductive GoPanic where
  | nilFunctionCall
deriving DecidableEq

/-- Panic-aware semantics of one Go call `opt(&o)`: calling a nil function
value panics, a non-nil one runs it. -/
def callOptionInvoke : CallOption → callOptions → Except GoPanic callOptions
  | none, _ => Except.error GoPanic.nilFunctionCall
  | some f, o => Except.ok (f o)

/-- Panic-aware embedding of the `buildCallOptions` loop: the source guards
each invocation with `if opt != nil`, so the nil-call panic is unreachable;
this definition keeps the panic branch explicit so that unreachability is a
theorem rather than a modelling assumption. -/
def buildGo : callOptions → List CallOption → Except GoPanic callOptions
  | o, [] => Except.ok o
  | o, opt :: rest =>
    if opt.isSome then
      match callOptionInvoke opt o with
      | Except.ok o2 => buildGo o2 rest
      | Except.error e => Except.error e
    else buildGo o rest

/-- Panic-aware `buildCallOptions`. -/
def buildCallOptionsE (opts : CallOpts) : Except GoPanic callOptions :=
  buildGo { ignoredCodes := [] } opts

/-- Panic-aware `toLegacyIgnored`. -/
def toLegacyIgnoredE (opts : CallOpts) : Except GoPanic Ignored :=
  match buildCallOptionsE opts with
  | Except.error e => Except.error e
  | Except.ok o =>
    Except.ok (if o.ignoredCodes.length = 0 then none else some [o.ignoredCodes])

theorem foldl_applyOpt_map_withIgnoredCodes (codess : List (List ErrCode))
    (init : callOptions) :
    List.foldl applyOpt init (codess.map WithIgnoredCodes) =
      { ignoredCodes := init.ignoredCodes ++ codess.flatten } := by
  induction codess generalizing init with
  | nil => cases init; simp
  | cons c cs ih =>
    cases init with
    | mk l =>
      simp only [List.map_cons, List.foldl_cons, applyOpt, WithIgnoredCodes,
        List.flatten_cons, ih, List.append_assoc]

theorem buildGo_ok (l : List CallOption) (o : callOptions) :
    buildGo o l = Except.ok (List.foldl applyOpt o l) := by
  induction l generalizing o with
  | nil => rfl
  | cons opt rest ih =>
    cases opt with
    | none => simpa [buildGo, applyOpt] using ih o
    | some f => simpa [buildGo, callOptionInvoke, applyOpt] using ih (f o)

/-!
Opaque stand-ins for the external payload types the facade only passes
through.  Each is a distinct one-field structure so that "same parameters,
same order" statements cannot conflate values of different Go types.
-/

/-- Go `context.Context`, opaque to the facade. -/
structure Ctx where
  val : ℕ
deriving DecidableEq

/-- Go `*netip.Addr`, opaque to the facade. -/
structure NetipAddr where
  val : ℕ
deriving DecidableEq

/-- Go `*netip.Prefix`, opaque to the facade. -/
structure NetipPrefix where
  val : ℕ
deriving DecidableEq

/-- Go `error` values returned by the legacy client, opaque to the facade. -/
structure GoError where
  val : ℕ
deriving DecidableEq

/-- A legacy method's Go return pair `(*T, error)`: a possibly-nil result
pointer and a possibly-nil error. -/
abbrev Ret (α : Type) := Option α × Option GoError

namespace api

/-- Go `*api.LoadBalancer`, opaque payload. -/
structure LoadBalancer where
  val : ℕ
deriving DecidableEq

/-- Go `*api.LoadBalancerList`, opaque payload. -/
structure LoadBalancerList where
  val : ℕ
deriving DecidableEq

/-- Go `*api.LoadBalancerPrefix`, opaque payload. -/
structure LoadBalancerPrefix where
  val : ℕ
deriving DecidableEq

/-- Go `*api.LoadBalancerTarget`, opaque payload. -/
structure LoadBalancerTarget where
  val : ℕ
deriving DecidableEq

/-- Go `*api.LoadBalancerTargetList`, opaque payload. -/
structure LoadBalancerTargetList where
  val : ℕ
deriving DecidableEq

/-- Go `*api.PrefixList`, opaque payload. -/
structure PrefixList where
  val : ℕ
deriving DecidableEq

/-- Go `*api.Prefix`, opaque payload. -/
structure Prefix where
  val : ℕ
deriving DecidableEq

/-- Go `*api.Interface`, opaque payload. -/
structure Interface where
  val : ℕ
deriving DecidableEq

/-- Go `*api.InterfaceList`, opaque payload. -/
structure InterfaceList where
  val : ℕ
deriving DecidableEq

/-- Go `*api.VirtualIP`, opaque payload. -/
structure VirtualIP where
  val : ℕ
deriving DecidableEq

/-- Go `*api.Route`, opaque payload. -/
structure Route where
  val : ℕ
deriving DecidableEq

/-- Go `*api.RouteList`, opaque payload. -/
structure RouteList where
  val : ℕ
deriving DecidableEq

/-- Go `*api.Nat`, opaque payload. -/
structure Nat where
  val : ℕ
deriving DecidableEq

/-- Go `*api.NatList`, opaque payload. -/
structure NatList where
  val : ℕ
deriving DecidableEq

/-- Go `*api.NeighborNat`, opaque payload. -/
structure NeighborNat where
  val : ℕ
deriving DecidableEq

/-- Go `*api.FirewallRule`, opaque payload. -/
structure FirewallRule where
  val : ℕ
deriving DecidableEq

/-- Go `*api.FirewallRuleList`, opaque payload. -/
structure FirewallRuleList where
  val : ℕ
deriving DecidableEq

/-- Go `*api.Initialized`, opaque payload. -/
structure Initialized where
  val : ℕ
deriving DecidableEq

/-- Go `*api.Vni`, opaque payload. -/
structure Vni where
  val : ℕ
deriving DecidableEq

/-- Go `*api.Version`, opaque payload. -/
structure Version where
  val : ℕ
deriving DecidableEq

/-- Go `*api.CaptureStart`, opaque payload. -/
structure CaptureStart where
  val : ℕ
deriving DecidableEq

/-- Go `*api.CaptureStop`, opaque payload. -/
structure CaptureStop where
  val : ℕ
deriving DecidableEq

/-- Go `*api.CaptureStatus`, opaque payload. -/
structure CaptureStatus where
  val : ℕ
deriving DecidableEq

end api

/-- The legacy flat dpservice client, external to the facade: one response
function per remote method.  Each function maps the method's arguments —
context, required parameters, and the `[][]uint32` ignored-codes variadic —
to the `(result, error)` pair the remote call produces. -/
structure LegacyClient where
  GetLoadBalancer : Ctx → String → Ignored → Ret api.LoadBalancer
  ListLoadBalancers : Ctx → Ignored → Ret api.LoadBalancerList
  CreateLoadBalancer : Ctx → api.LoadBalancer → Ignored → Ret api.LoadBalancer
  DeleteLoadBalancer : Ctx → String → Ignored → Ret api.LoadBalancer
  ListLoadBalancerPrefixes : Ctx → String → Ignored → Ret api.PrefixList
  CreateLoadBalancerPrefix : Ctx → api.LoadBalancerPrefix → Ignored → Ret api.LoadBalancerPrefix
  DeleteLoadBalancerPrefix : Ctx → String → NetipPrefix → Ignored → Ret api.LoadBalancerPrefix
  ListLoadBalancerTargets : Ctx → String → Ignored → Ret api.LoadBalancerTargetList
  CreateLoadBalancerTarget : Ctx → api.LoadBalancerTarget → Ignored → Ret api.LoadBalancerTarget
  DeleteLoadBalancerTarget : Ctx → String → NetipAddr → Ignored → Ret api.LoadBalancerTarget
  GetInterface : Ctx → String → Ignored → Ret api.Interface
  ListInterfaces : Ctx → Ignored → Ret api.InterfaceList
  CreateInterface : Ctx → api.Interface → Ignored → Ret api.Interface
  DeleteInterface : Ctx → String → Ignored → Ret api.Interface
  GetVirtualIP : Ctx → String → Ignored → Ret api.VirtualIP
  CreateVirtualIP : Ctx → api.VirtualIP → Ignored → Ret api.VirtualIP
  DeleteVirtualIP : Ctx → String → Ignored → Ret api.VirtualIP
  ListPrefixes : Ctx → String → Ignored → Ret api.PrefixList
  CreatePrefix : Ctx → api.Prefix → Ignored → Ret api.Prefix
  DeletePrefix : Ctx → String → NetipPrefix → Ignored → Ret api.Prefix
  ListRoutes : Ctx → ℕ → Ignored → Ret api.RouteList
  CreateRoute : Ctx → api.Route → Ignored → Ret api.Route
  DeleteRoute : Ctx → ℕ → NetipPrefix → Ignored → Ret api.Route
  GetNat : Ctx → String → Ignored → Ret api.Nat
  CreateNat : Ctx → api.Nat → Ignored → Ret api.Nat
  DeleteNat : Ctx → String → Ignored → Ret api.Nat
  ListNats : Ctx → NetipAddr → String → Ignored → Ret api.NatList
  ListLocalNats : Ctx → NetipAddr → Ignored → Ret api.NatList
  ListNeighborNats : Ctx → NetipAddr → Ignored → Ret api.NatList
  CreateNeighborNat : Ctx → api.NeighborNat → Ignored → Ret api.NeighborNat
  DeleteNeighborNat : Ctx → api.NeighborNat → Ignored → Ret api.NeighborNat
  ListFirewallRules : Ctx → String → Ignored → Ret api.FirewallRuleList
  GetFirewallRule : Ctx → String → String → Ignored → Ret api.FirewallRule
  CreateFirewallRule : Ctx → api.FirewallRule → Ignored → Ret api.FirewallRule
  DeleteFirewallRule : Ctx → String → String → Ignored → Ret api.FirewallRule
  CheckInitialized : Ctx → Ignored → Ret api.Initialized
  Initialize : Ctx → Ignored → Ret api.Initialized
  GetVni : Ctx → ℕ → ℕ → Ignored → Ret api.Vni
  ResetVni : Ctx → ℕ → ℕ → Ignored → Ret api.Vni
  GetVersion : Ctx → api.Version → Ignored → Ret api.Version
  CaptureStart : Ctx → api.CaptureStart → Ignored → Ret api.CaptureStart
  CaptureStop : Ctx → Ignored → Ret api.CaptureStop
  CaptureStatus : Ctx → Ignored → Ret api.CaptureStatus

/-- One argument of a legacy-client call, tagged by its Go type, used to
state "the call passes exactly these values in this order". -/
inductive Arg where
  | ctx (c : Ctx)
  | str (s : String)
  | u32 (n : ℕ)
  | u8 (n : ℕ)
  | addr (a : NetipAddr)
  | pfx (p : NetipPrefix)
  | lb (x : api.LoadBalancer)
  | lbPfx (x : api.LoadBalancerPrefix)
  | lbTarget (x : api.LoadBalancerTarget)
  | iface (x : api.Interface)
  | vip (x : api.VirtualIP)
  | apiPfx (x : api.Prefix)
  | route (x : api.Route)
  | nat (x : api.Nat)
  | neighborNat (x : api.NeighborNat)
  | fwRule (x : api.FirewallRule)
  | version (x : api.Version)
  | captureStart (x : api.CaptureStart)
  | ignored (ig : Ignored)
deriving DecidableEq

/-- A record of one invocation of a legacy-client method: which method, with
which arguments.  Facade operations return the list of such events they
perform, so call counts and argument lists are provable. -/
inductive LegacyCall where
  | GetLoadBalancer (ctx : Ctx) (id : String) (ig : Ignored)
  | ListLoadBalancers (ctx : Ctx) (ig : Ignored)
  | CreateLoadBalancer (ctx : Ctx) (lb : api.LoadBalancer) (ig : Ignored)
  | DeleteLoadBalancer (ctx : Ctx) (id : String) (ig : Ignored)
  | ListLoadBalancerPrefixes (ctx : Ctx) (interfaceID : String) (ig : Ignored)
  | CreateLoadBalancerPrefix (ctx : Ctx) (pfx : api.LoadBalancerPrefix) (ig : Ignored)
  | DeleteLoadBalancerPrefix (ctx : Ctx) (interfaceID : String) (pfx : NetipPrefix) (ig : Ignored)
  | ListLoadBalancerTargets (ctx : Ctx) (loadBalancerID : String) (ig : Ignored)
  | CreateLoadBalancerTarget (ctx : Ctx) (target : api.LoadBalancerTarget) (ig : Ignored)
  | DeleteLoadBalancerTarget (ctx : Ctx) (lbID : String) (targetIP : NetipAddr) (ig : Ignored)
  | GetInterface (ctx : Ctx) (id : String) (ig : Ignored)
  | ListInterfaces (ctx : Ctx) (ig : Ignored)
  | CreateInterface (ctx : Ctx) (iface : api.Interface) (ig : Ignored)
  | DeleteInterface (ctx : Ctx) (id : String) (ig : Ignored)
  | GetVirtualIP (ctx : Ctx) (interfaceID : String) (ig : Ignored)
  | CreateVirtualIP (ctx : Ctx) (vip : api.VirtualIP) (ig : Ignored)
  | DeleteVirtualIP (ctx : Ctx) (interfaceID : String) (ig : Ignored)
  | ListPrefixes (ctx : Ctx) (interfaceID : String) (ig : Ignored)
  | CreatePrefix (ctx : Ctx) (pfx : api.Prefix) (ig : Ignored)
  | DeletePrefix (ctx : Ctx) (interfaceID : String) (pfx : NetipPrefix) (ig : Ignored)
  | ListRoutes (ctx : Ctx) (vni : ℕ) (ig : Ignored)
  | CreateRoute (ctx : Ctx) (route : api.Route) (ig : Ignored)
  | DeleteRoute (ctx : Ctx) (vni : ℕ) (pfx : NetipPrefix) (ig : Ignored)
  | GetNat (ctx : Ctx) (interfaceID : String) (ig : Ignored)
  | CreateNat (ctx : Ctx) (nat : api.Nat) (ig : Ignored)
  | DeleteNat (ctx : Ctx) (interfaceID : String) (ig : Ignored)
  | ListNats (ctx : Ctx) (natIP : NetipAddr) (natType : String) (ig : Ignored)
  | ListLocalNats (ctx : Ctx) (natIP : NetipAddr) (ig : Ignored)
  | ListNeighborNats (ctx : Ctx) (natIP : NetipAddr) (ig : Ignored)
  | CreateNeighborNat (ctx : Ctx) (n : api.NeighborNat) (ig : Ignored)
  | DeleteNeighborNat (ctx : Ctx) (n : api.NeighborNat) (ig : Ignored)
  | ListFirewallRules (ctx : Ctx) (interfaceID : String) (ig : Ignored)
  | GetFirewallRule (ctx : Ctx) (interfaceID : String) (ruleID : String) (ig : Ignored)
  | CreateFirewallRule (ctx : Ctx) (rule : api.FirewallRule) (ig : Ignored)
  | DeleteFirewallRule (ctx : Ctx) (interfaceID : String) (ruleID : String) (ig : Ignored)
  | CheckInitialized (ctx : Ctx) (ig : Ignored)
  | Initialize (ctx : Ctx) (ig : Ignored)
  | GetVni (ctx : Ctx) (vni : ℕ) (vniType : ℕ) (ig : Ignored)
  | ResetVni (ctx : Ctx) (vni : ℕ) (vniType : ℕ) (ig : Ignored)
  | GetVersion (ctx : Ctx) (version : api.Version) (ig : Ignored)
  | CaptureStart (ctx : Ctx) (capture : api.CaptureStart) (ig : Ignored)
  | CaptureStop (ctx : Ctx) (ig : Ignored)
  | CaptureStatus (ctx : Ctx) (ig : Ignored)

/-- The exact argument list, in order, that a recorded legacy call passes. -/
def LegacyCall.args : LegacyCall → List Arg
  | .GetLoadBalancer c i ig => [.ctx c, .str i, .ignored ig]
  | .ListLoadBalancers c ig => [.ctx c, .ignored ig]
  | .CreateLoadBalancer c x ig => [.ctx c, .lb x, .ignored ig]
  | .DeleteLoadBalancer c i ig => [.ctx c, .str i, .ignored ig]
  | .ListLoadBalancerPrefixes c i ig => [.ctx c, .str i, .ignored ig]
  | .CreateLoadBalancerPrefix c x ig => [.ctx c, .lbPfx x, .ignored ig]
  | .DeleteLoadBalancerPrefix c i p ig => [.ctx c, .str i, .pfx p, .ignored ig]
  | .ListLoadBalancerTargets c i ig => [.ctx c, .str i, .ignored ig]
  | .CreateLoadBalancerTarget c x ig => [.ctx c, .lbTarget x, .ignored ig]
  | .DeleteLoadBalancerTarget c i a ig => [.ctx c, .str i, .addr a, .ignored ig]
  | .GetInterface c i ig => [.ctx c, .str i, .ignored ig]
  | .ListInterfaces c ig => [.ctx c, .ignored ig]
  | .CreateInterface c x ig => [.ctx c, .iface x, .ignored ig]
  | .DeleteInterface c i ig => [.ctx c, .str i, .ignored ig]
  | .GetVirtualIP c i ig => [.ctx c, .str i, .ignored ig]
  | .CreateVirtualIP c x ig => [.ctx c, .vip x, .ignored ig]
  | .DeleteVirtualIP c i ig => [.ctx c, .str i, .ignored ig]
  | .ListPrefixes c i ig => [.ctx c, .str i, .ignored ig]
  | .CreatePrefix c x ig => [.ctx c, .apiPfx x, .ignored ig]
  | .DeletePrefix c i p ig => [.ctx c, .str i, .pfx p, .ignored ig]
  | .ListRoutes c v ig => [.ctx c, .u32 v, .ignored ig]
  | .CreateRoute c x ig => [.ctx c, .route x, .ignored ig]
  | .DeleteRoute c v p ig => [.ctx c, .u32 v, .pfx p, .ignored ig]
  | .GetNat c i ig => [.ctx c, .str i, .ignored ig]
  | .CreateNat c x ig => [.ctx c, .nat x, .ignored ig]
  | .DeleteNat c i ig => [.ctx c, .str i, .ignored ig]
  | .ListNats c a t ig => [.ctx c, .addr a, .str t, .ignored ig]
  | .ListLocalNats c a ig => [.ctx c, .addr a, .ignored ig]
  | .ListNeighborNats c a ig => [.ctx c, .addr a, .ignored ig]
  | .CreateNeighborNat c x ig => [.ctx c, .neighborNat x, .ignored ig]
  | .DeleteNeighborNat c x ig => [.ctx c, .neighborNat x, .ignored ig]
  | .ListFirewallRules c i ig => [.ctx c, .str i, .ignored ig]
  | .GetFirewallRule c i r ig => [.ctx c, .str i, .str r, .ignored ig]
  | .CreateFirewallRule c x ig => [.ctx c, .fwRule x, .ignored ig]
  | .DeleteFirewallRule c i r ig => [.ctx c, .str i, .str r, .ignored ig]
  | .CheckInitialized c ig => [.ctx c, .ignored ig]
  | .Initialize c ig => [.ctx c, .ignored ig]
  | .GetVni c v t ig => [.ctx c, .u32 v, .u8 t, .ignored ig]
  | .ResetVni c v t ig => [.ctx c, .u32 v, .u8 t, .ignored ig]
  | .GetVersion c x ig => [.ctx c, .version x, .ignored ig]
  | .CaptureStart c x ig => [.ctx c, .captureStart x, .ignored ig]
  | .CaptureStop c ig => [.ctx c, .ignored ig]
  | .CaptureStatus c ig => [.ctx c, .ignored ig]

/-- A facade operation's outcome: the legacy calls it performed, in order,
and the value it returns to its caller. -/
abbrev Fwd (α : Type) := List LegacyCall × Ret α

/-!
Handle types.  Each embeds a Go struct of the shape
`type xClient struct { legacy legacy.Client }` — a single field holding the
shared legacy client reference.
-/

/-- Embeds `type rootAdapter struct { legacy legacy.Client }`. -/
structure rootAdapter where
  legacy : LegacyClient

/-- Embeds `type lbClient struct{ legacy legacy.Client }`. -/
structure lbClient where
  legacy : LegacyClient

/-- Embeds `type lbPrefixesClient struct{ legacy legacy.Client }`. -/
structure lbPrefixesClient where
  legacy : LegacyClient

/-- Embeds `type lbTargetsClient struct{ legacy legacy.Client }`. -/
structure lbTargetsClient where
  legacy : LegacyClient

/-- Embeds `type ifaceClient struct{ legacy legacy.Client }`. -/
structure ifaceClient where
  legacy : LegacyClient

/-- Embeds `type vipClient struct{ legacy legacy.Client }`. -/
structure vipClient where
  legacy : LegacyClient

/-- Embeds `type ifacePrefixesClient struct{ legacy legacy.Client }`. -/
structure ifacePrefixesClient where
  legacy : LegacyClient

/-- Embeds `type routeClient struct{ legacy legacy.Client }`. -/
structure routeClient where
  legacy : LegacyClient

/-- Embeds `type natClient struct{ legacy legacy.Client }`. -/
structure natClient where
  legacy : LegacyClient

/-- Embeds `type fwClient struct{ legacy legacy.Client }`. -/
structure fwClient where
  legacy : LegacyClient

/-- Embeds `type systemClient struct{ legacy legacy.Client }`. -/
structure systemClient where
  legacy : LegacyClient

/-- Embeds `type captureClient struct{ legacy legacy.Client }`. -/
structure captureClient where
  legacy : LegacyClient

/-- Embeds `AsV2(c legacy.Client) Client`: wrap an existing legacy client in
the root adapter, with no new client or transport construction. -/
def AsV2 (c : LegacyClient) : rootAdapter :=
  { legacy := c }

/-- Embeds `func (r *rootAdapter) LoadBalancers()`. -/
def rootAdapter.LoadBalancers (r : rootAdapter) : lbClient :=
  { legacy := r.legacy }

/-- Embeds `func (r *rootAdapter) Interfaces()`. -/
def rootAdapter.Interfaces (r : rootAdapter) : ifaceClient :=
  { legacy := r.legacy }

/-- Embeds `func (r *rootAdapter) Routes()`. -/
def rootAdapter.Routes (r : rootAdapter) : routeClient :=
  { legacy := r.legacy }

/-- Embeds `func (r *rootAdapter) NATs()`. -/
def rootAdapter.NATs (r : rootAdapter) : natClient :=
  { legacy := r.legacy }

/-- Embeds `func (r *rootAdapter) Firewall()`. -/
def rootAdapter.Firewall (r : rootAdapter) : fwClient :=
  { legacy := r.legacy }

/-- Embeds `func (r *rootAdapter) System()`. -/
def rootAdapter.System (r : rootAdapter) : systemClient :=
  { legacy := r.legacy }

/-- Embeds `func (r *rootAdapter) Capture()`. -/
def rootAdapter.Capture (r : rootAdapter) : captureClient :=
  { legacy := r.legacy }

/-- Embeds `func (c *lbClient) Prefixes()`. -/
def lbClient.Prefixes (c : lbClient) : lbPrefixesClient :=
  { legacy := c.legacy }

/-- Embeds `func (c *lbClient) Targets()`. -/
def lbClient.Targets (c : lbClient) : lbTargetsClient :=
  { legacy := c.legacy }

/-- Embeds `func (c *ifaceClient) VIP()`. -/
def ifaceClient.VIP (c : ifaceClient) : vipClient :=
  { legacy := c.legacy }

/-- Embeds `func (c *ifaceClient) Prefixes()`. -/
def ifaceClient.Prefixes (c : ifaceClient) : ifacePrefixesClient :=
  { legacy := c.legacy }

/-- Embeds `func (c *ifaceClient) Firewall()`. -/
def ifaceClient.Firewall (c : ifaceClient) : fwClient :=
  { legacy := c.legacy }

/-!
Facade operations.  Each embeds one Go one-liner of the shape
`return c.legacy.M(ctx, P..., toLegacyIgnored(opts...)...)`: it performs
exactly one legacy call — recorded as the singleton trace — and returns the
legacy result unchanged.
-/

/-- Embeds `func (c *lbClient) Get`. -/
def lbClient.Get (c : lbClient) (ctx : Ctx) (id : String) (opts : CallOpts) :
    Fwd api.LoadBalancer :=
  ([LegacyCall.GetLoadBalancer ctx id (toLegacyIgnored opts)],
   c.legacy.GetLoadBalancer ctx id (toLegacyIgnored opts))

/-- Embeds `func (c *lbClient) List`. -/
def lbClient.List (c : lbClient) (ctx : Ctx) (opts : CallOpts) :
    Fwd api.LoadBalancerList :=
  ([LegacyCall.ListLoadBalancers ctx (toLegacyIgnored opts)],
   c.legacy.ListLoadBalancers ctx (toLegacyIgnored opts))

/-- Embeds `func (c *lbClient) Create`. -/
def lbClient.Create (c : lbClient) (ctx : Ctx) (lb : api.LoadBalancer)
    (opts : CallOpts) : Fwd api.LoadBalancer :=
  ([LegacyCall.CreateLoadBalancer ctx lb (toLegacyIgnored opts)],
   c.legacy.CreateLoadBalancer ctx lb (toLegacyIgnored opts))

/-- Embeds `func (c *lbClient) Delete`. -/
def lbClient.Delete (c : lbClient) (ctx : Ctx) (id : String) (opts : CallOpts) :
    Fwd api.LoadBalancer :=
  ([LegacyCall.DeleteLoadBalancer ctx id (toLegacyIgnored opts)],
   c.legacy.DeleteLoadBalancer ctx id (toLegacyIgnored opts))

/-- Embeds `func (c *lbPrefixesClient) List`. -/
def lbPrefixesClient.List (c : lbPrefixesClient) (ctx : Ctx) (interfaceID : String)
    (opts : CallOpts) : Fwd api.PrefixList :=
  ([LegacyCall.ListLoadBalancerPrefixes ctx interfaceID (toLegacyIgnored opts)],
   c.legacy.ListLoadBalancerPrefixes ctx interfaceID (toLegacyIgnored opts))

/-- Embeds `func (c *lbPrefixesClient) Create`. -/
def lbPrefixesClient.Create (c : lbPrefixesClient) (ctx : Ctx)
    (pfx : api.LoadBalancerPrefix) (opts : CallOpts) : Fwd api.LoadBalancerPrefix :=
  ([LegacyCall.CreateLoadBalancerPrefix ctx pfx (toLegacyIgnored opts)],
   c.legacy.CreateLoadBalancerPrefix ctx pfx (toLegacyIgnored opts))

/-- Embeds `func (c *lbPrefixesClient) Delete`. -/
def lbPrefixesClient.Delete (c : lbPrefixesClient) (ctx : Ctx) (interfaceID : String)
    (pfx : NetipPrefix) (opts : CallOpts) : Fwd api.LoadBalancerPrefix :=
  ([LegacyCall.DeleteLoadBalancerPrefix ctx interfaceID pfx (toLegacyIgnored opts)],
   c.legacy.DeleteLoadBalancerPrefix ctx interfaceID pfx (toLegacyIgnored opts))

/-- Embeds `func (c *lbTargetsClient) List`. -/
def lbTargetsClient.List (c : lbTargetsClient) (ctx : Ctx) (loadBalancerID : String)
    (opts : CallOpts) : Fwd api.LoadBalancerTargetList :=
  ([LegacyCall.ListLoadBalancerTargets ctx loadBalancerID (toLegacyIgnored opts)],
   c.legacy.ListLoadBalancerTargets ctx loadBalancerID (toLegacyIgnored opts))

/-- Embeds `func (c *lbTargetsClient) Create`. -/
def lbTargetsClient.Create (c : lbTargetsClient) (ctx : Ctx)
    (target : api.LoadBalancerTarget) (opts : CallOpts) : Fwd api.LoadBalancerTarget :=
  ([LegacyCall.CreateLoadBalancerTarget ctx target (toLegacyIgnored opts)],
   c.legacy.CreateLoadBalancerTarget ctx target (toLegacyIgnored opts))

/-- Embeds `func (c *lbTargetsClient) Delete`. -/
def lbTargetsClient.Delete (c : lbTargetsClient) (ctx : Ctx) (lbID : String)
    (targetIP : NetipAddr) (opts : CallOpts) : Fwd api.LoadBalancerTarget :=
  ([LegacyCall.DeleteLoadBalancerTarget ctx lbID targetIP (toLegacyIgnored opts)],
   c.legacy.DeleteLoadBalancerTarget ctx lbID targetIP (toLegacyIgnored opts))

/-- Embeds `func (c *ifaceClient) Get`. -/
def ifaceClient.Get (c : ifaceClient) (ctx : Ctx) (id : String) (opts : CallOpts) :
    Fwd api.Interface :=
  ([LegacyCall.GetInterface ctx id (toLegacyIgnored opts)],
   c.legacy.GetInterface ctx id (toLegacyIgnored opts))

/-- Embeds `func (c *ifaceClient) List`. -/
def ifaceClient.List (c : ifaceClient) (ctx : Ctx) (opts : CallOpts) :
    Fwd api.InterfaceList :=
  ([LegacyCall.ListInterfaces ctx (toLegacyIgnored opts)],
   c.legacy.ListInterfaces ctx (toLegacyIgnored opts))

/-- Embeds `func (c *ifaceClient) Create`. -/
def ifaceClient.Create (c : ifaceClient) (ctx : Ctx) (iface : api.Interface)
    (opts : CallOpts) : Fwd api.Interface :=
  ([LegacyCall.CreateInterface ctx iface (toLegacyIgnored opts)],
   c.legacy.CreateInterface ctx iface (toLegacyIgnored opts))

/-- Embeds `func (c *ifaceClient) Delete`. -/
def ifaceClient.Delete (c : ifaceClient) (ctx : Ctx) (id : String) (opts : CallOpts) :
    Fwd api.Interface :=
  ([LegacyCall.DeleteInterface ctx id (toLegacyIgnored opts)],
   c.legacy.DeleteInterface ctx id (toLegacyIgnored opts))

/-- Embeds `func (c *vipClient) Get`. -/
def vipClient.Get (c : vipClient) (ctx : Ctx) (interfaceID : String)
    (opts : CallOpts) : Fwd api.VirtualIP :=
  ([LegacyCall.GetVirtualIP ctx interfaceID (toLegacyIgnored opts)],
   c.legacy.GetVirtualIP ctx interfaceID (toLegacyIgnored opts))

/-- Embeds `func (c *vipClient) Create`. -/
def vipClient.Create (c : vipClient) (ctx : Ctx) (vip : api.VirtualIP)
    (opts : CallOpts) : Fwd api.VirtualIP :=
  ([LegacyCall.CreateVirtualIP ctx vip (toLegacyIgnored opts)],
   c.legacy.CreateVirtualIP ctx vip (toLegacyIgnored opts))

/-- Embeds `func (c *vipClient) Delete`. -/
def vipClient.Delete (c : vipClient) (ctx : Ctx) (interfaceID : String)
    (opts : CallOpts) : Fwd api.VirtualIP :=
  ([LegacyCall.DeleteVirtualIP ctx interfaceID (toLegacyIgnored opts)],
   c.legacy.DeleteVirtualIP ctx interfaceID (toLegacyIgnored opts))

/-- Embeds `func (c *ifacePrefixesClient) List`. -/
def ifacePrefixesClient.List (c : ifacePrefixesClient) (ctx : Ctx) (interfaceID : String)
    (opts : CallOpts) : Fwd api.PrefixList :=
  ([LegacyCall.ListPrefixes ctx interfaceID (toLegacyIgnored opts)],
   c.legacy.ListPrefixes ctx interfaceID (toLegacyIgnored opts))

/-- Embeds `func (c *ifacePrefixesClient) Create`. -/
def ifacePrefixesClient.Create (c : ifacePrefixesClient) (ctx : Ctx) (pfx : api.Prefix)
    (opts : CallOpts) : Fwd api.Prefix :=
  ([LegacyCall.CreatePrefix ctx pfx (toLegacyIgnored opts)],
   c.legacy.CreatePrefix ctx pfx (toLegacyIgnored opts))

/-- Embeds `func (c *ifacePrefixesClient) Delete`. -/
def ifacePrefixesClient.Delete (c : ifacePrefixesClient) (ctx : Ctx) (interfaceID : String)
    (pfx : NetipPrefix) (opts : CallOpts) : Fwd api.Prefix :=
  ([LegacyCall.DeletePrefix ctx interfaceID pfx (toLegacyIgnored opts)],
   c.legacy.DeletePrefix ctx interfaceID pfx (toLegacyIgnored opts))

/-- Embeds `func (c *routeClient) List`. -/
def routeClient.List (c : routeClient) (ctx : Ctx) (vni : ℕ) (opts : CallOpts) :
    Fwd api.RouteList :=
  ([LegacyCall.ListRoutes ctx vni (toLegacyIgnored opts)],
   c.legacy.ListRoutes ctx vni (toLegacyIgnored opts))

/-- Embeds `func (c *routeClient) Create`. -/
def routeClient.Create (c : routeClient) (ctx : Ctx) (route : api.Route)
    (opts : CallOpts) : Fwd api.Route :=
  ([LegacyCall.CreateRoute ctx route (toLegacyIgnored opts)],
   c.legacy.CreateRoute ctx route (toLegacyIgnored opts))

/-- Embeds `func (c *routeClient) Delete`. -/
def routeClient.Delete (c : routeClient) (ctx : Ctx) (vni : ℕ) (pfx : NetipPrefix)
    (opts : CallOpts) : Fwd api.Route :=
  ([LegacyCall.DeleteRoute ctx vni pfx (toLegacyIgnored opts)],
   c.legacy.DeleteRoute ctx vni pfx (toLegacyIgnored opts))

/-- Embeds `func (c *natClient) Get`. -/
def natClient.Get (c : natClient) (ctx : Ctx) (interfaceID : String)
    (opts : CallOpts) : Fwd api.Nat :=
  ([LegacyCall.GetNat ctx interfaceID (toLegacyIgnored opts)],
   c.legacy.GetNat ctx interfaceID (toLegacyIgnored opts))

/-- Embeds `func (c *natClient) Create`. -/
def natClient.Create (c : natClient) (ctx : Ctx) (nat : api.Nat)
    (opts : CallOpts) : Fwd api.Nat :=
  ([LegacyCall.CreateNat ctx nat (toLegacyIgnored opts)],
   c.legacy.CreateNat ctx nat (toLegacyIgnored opts))

/-- Embeds `func (c *natClient) Delete`. -/
def natClient.Delete (c : natClient) (ctx : Ctx) (interfaceID : String)
    (opts : CallOpts) : Fwd api.Nat :=
  ([LegacyCall.DeleteNat ctx interfaceID (toLegacyIgnored opts)],
   c.legacy.DeleteNat ctx interfaceID (toLegacyIgnored opts))

/-- Embeds `func (c *natClient) ListAny`, whose body is
`return c.legacy.ListNats(ctx, natIP, "any", toLegacyIgnored(opts...)...)` —
note the constant `"any"` NAT-type selector inserted between the caller's
parameter and the ignored-codes argument. -/
def natClient.ListAny (c : natClient) (ctx : Ctx) (natIP : NetipAddr)
    (opts : CallOpts) : Fwd api.NatList :=
  ([LegacyCall.ListNats ctx natIP "any" (toLegacyIgnored opts)],
   c.legacy.ListNats ctx natIP "any" (toLegacyIgnored opts))

/-- Embeds `func (c *natClient) ListLocal`. -/
def natClient.ListLocal (c : natClient) (ctx : Ctx) (natIP : NetipAddr)
    (opts : CallOpts) : Fwd api.NatList :=
  ([LegacyCall.ListLocalNats ctx natIP (toLegacyIgnored opts)],
   c.legacy.ListLocalNats ctx natIP (toLegacyIgnored opts))

/-- Embeds `func (c *natClient) ListNeighbors`. -/
def natClient.ListNeighbors (c : natClient) (ctx : Ctx) (natIP : NetipAddr)
    (opts : CallOpts) : Fwd api.NatList :=
  ([LegacyCall.ListNeighborNats ctx natIP (toLegacyIgnored opts)],
   c.legacy.ListNeighborNats ctx natIP (toLegacyIgnored opts))

/-- Embeds `func (c *natClient) CreateNeighbor`. -/
def natClient.CreateNeighbor (c : natClient) (ctx : Ctx) (n : api.NeighborNat)
    (opts : CallOpts) : Fwd api.NeighborNat :=
  ([LegacyCall.CreateNeighborNat ctx n (toLegacyIgnored opts)],
   c.legacy.CreateNeighborNat ctx n (toLegacyIgnored opts))

/-- Embeds `func (c *natClient) DeleteNeighbor`. -/
def natClient.DeleteNeighbor (c : natClient) (ctx : Ctx) (n : api.NeighborNat)
    (opts : CallOpts) : Fwd api.NeighborNat :=
  ([LegacyCall.DeleteNeighborNat ctx n (toLegacyIgnored opts)],
   c.legacy.DeleteNeighborNat ctx n (toLegacyIgnored opts))

/-- Embeds `func (c *fwClient) List`. -/
def fwClient.List (c : fwClient) (ctx : Ctx) (interfaceID : String)
    (opts : CallOpts) : Fwd api.FirewallRuleList :=
  ([LegacyCall.ListFirewallRules ctx interfaceID (toLegacyIgnored opts)],
   c.legacy.ListFirewallRules ctx interfaceID (toLegacyIgnored opts))

/-- Embeds `func (c *fwClient) Get`. -/
def fwClient.Get (c : fwClient) (ctx : Ctx) (interfaceID : String) (ruleID : String)
    (opts : CallOpts) : Fwd api.FirewallRule :=
  ([LegacyCall.GetFirewallRule ctx interfaceID ruleID (toLegacyIgnored opts)],
   c.legacy.GetFirewallRule ctx interfaceID ruleID (toLegacyIgnored opts))

/-- Embeds `func (c *fwClient) Create`. -/
def fwClient.Create (c : fwClient) (ctx : Ctx) (rule : api.FirewallRule)
    (opts : CallOpts) : Fwd api.FirewallRule :=
  ([LegacyCall.CreateFirewallRule ctx rule (toLegacyIgnored opts)],
   c.legacy.CreateFirewallRule ctx rule (toLegacyIgnored opts))

/-- Embeds `func (c *fwClient) Delete`. -/
def fwClient.Delete (c : fwClient) (ctx : Ctx) (interfaceID : String) (ruleID : String)
    (opts : CallOpts) : Fwd api.FirewallRule :=
  ([LegacyCall.DeleteFirewallRule ctx interfaceID ruleID (toLegacyIgnored opts)],
   c.legacy.DeleteFirewallRule ctx interfaceID ruleID (toLegacyIgnored opts))

/-- Embeds `func (c *systemClient) CheckInitialized`. -/
def systemClient.CheckInitialized (c : systemClient) (ctx : Ctx)
    (opts : CallOpts) : Fwd api.Initialized :=
  ([LegacyCall.CheckInitialized ctx (toLegacyIgnored opts)],
   c.legacy.CheckInitialized ctx (toLegacyIgnored opts))

/-- Embeds `func (c *systemClient) Initialize`. -/
def systemClient.Initialize (c : systemClient) (ctx : Ctx)
    (opts : CallOpts) : Fwd api.Initialized :=
  ([LegacyCall.Initialize ctx (toLegacyIgnored opts)],
   c.legacy.Initialize ctx (toLegacyIgnored opts))

/-- Embeds `func (c *systemClient) GetVni`. -/
def systemClient.GetVni (c : systemClient) (ctx : Ctx) (vni : ℕ) (vniType : ℕ)
    (opts : CallOpts) : Fwd api.Vni :=
  ([LegacyCall.GetVni ctx vni vniType (toLegacyIgnored opts)],
   c.legacy.GetVni ctx vni vniType (toLegacyIgnored opts))

/-- Embeds `func (c *systemClient) ResetVni`. -/
def systemClient.ResetVni (c : systemClient) (ctx : Ctx) (vni : ℕ) (vniType : ℕ)
    (opts : CallOpts) : Fwd api.Vni :=
  ([LegacyCall.ResetVni ctx vni vniType (toLegacyIgnored opts)],
   c.legacy.ResetVni ctx vni vniType (toLegacyIgnored opts))

/-- Embeds `func (c *systemClient) GetVersion`. -/
def systemClient.GetVersion (c : systemClient) (ctx : Ctx) (version : api.Version)
    (opts : CallOpts) : Fwd api.Version :=
  ([LegacyCall.GetVersion ctx version (toLegacyIgnored opts)],
   c.legacy.GetVersion ctx version (toLegacyIgnored opts))

/-- Embeds `func (c *captureClient) Start`. -/
def captureClient.Start (c : captureClient) (ctx : Ctx) (capture : api.CaptureStart)
    (opts : CallOpts) : Fwd api.CaptureStart :=
  ([LegacyCall.CaptureStart ctx capture (toLegacyIgnored opts)],
   c.legacy.CaptureStart ctx capture (toLegacyIgnored opts))

/-- Embeds `func (c *captureClient) Stop`. -/
def captureClient.Stop (c : captureClient) (ctx : Ctx) (opts : CallOpts) :
    Fwd api.CaptureStop :=
  ([LegacyCall.CaptureStop ctx (toLegacyIgnored opts)],
   c.legacy.CaptureStop ctx (toLegacyIgnored opts))

/-- Embeds `func (c *captureClient) Status`. -/
def captureClient.Status (c : captureClient) (ctx : Ctx) (opts : CallOpts) :
    Fwd api.CaptureStatus :=
  ([LegacyCall.CaptureStatus ctx (toLegacyIgnored opts)],
   c.legacy.CaptureStatus ctx (toLegacyIgnored opts))

/-- A concrete legacy client whose every method returns `(nil, nil)`; used
only to instantiate closed witness statements. -/
def trivialLegacy : LegacyClient where
  GetLoadBalancer := fun _ _ _ => (none, none)
  ListLoadBalancers := fun _ _ => (none, none)
  CreateLoadBalancer := fun _ _ _ => (none, none)
  DeleteLoadBalancer := fun _ _ _ => (none, none)
  ListLoadBalancerPrefixes := fun _ _ _ => (none, none)
  CreateLoadBalancerPrefix := fun _ _ _ => (none, none)
  DeleteLoadBalancerPrefix := fun _ _ _ _ => (none, none)
  ListLoadBalancerTargets := fun _ _ _ => (none, none)
  CreateLoadBalancerTarget := fun _ _ _ => (none, none)
  DeleteLoadBalancerTarget := fun _ _ _ _ => (none, none)
  GetInterface := fun _ _ _ => (none, none)
  ListInterfaces := fun _ _ => (none, none)
  CreateInterface := fun _ _ _ => (none, none)
  DeleteInterface := fun _ _ _ => (none, none)
  GetVirtualIP := fun _ _ _ => (none, none)
  CreateVirtualIP := fun _ _ _ => (none, none)
  DeleteVirtualIP := fun _ _ _ => (none, none)
  ListPrefixes := fun _ _ _ => (none, none)
  CreatePrefix := fun _ _ _ => (none, none)
  DeletePrefix := fun _ _ _ _ => (none, none)
  ListRoutes := fun _ _ _ => (none, none)
  CreateRoute := fun _ _ _ => (none, none)
  DeleteRoute := fun _ _ _ _ => (none, none)
  GetNat := fun _ _ _ => (none, none)
  CreateNat := fun _ _ _ => (none, none)
  DeleteNat := fun _ _ _ => (none, none)
  ListNats := fun _ _ _ _ => (none, none)
  ListLocalNats := fun _ _ _ => (none, none)
  ListNeighborNats := fun _ _ _ => (none, none)
  CreateNeighborNat := fun _ _ _ => (none, none)
  DeleteNeighborNat := fun _ _ _ => (none, none)
  ListFirewallRules := fun _ _ _ => (none, none)
  GetFirewallRule := fun _ _ _ _ => (none, none)
  CreateFirewallRule := fun _ _ _ => (none, none)
  DeleteFirewallRule := fun _ _ _ _ => (none, none)
  CheckInitialized := fun _ _ => (none, none)
  Initialize := fun _ _ => (none, none)
  GetVni := fun _ _ _ _ => (none, none)
  ResetVni := fun _ _ _ _ => (none, none)
  GetVersion := fun _ _ _ => (none, none)
  CaptureStart := fun _ _ _ => (none, none)
  CaptureStop := fun _ _ => (none, none)
  CaptureStatus := fun _ _ => (none, none)

theorem toLegacyIgnored_eq (opts : CallOpts) :
    toLegacyIgnored opts =
      if (buildCallOptions opts).ignoredCodes.length = 0 then none
      else some [(buildCallOptions opts).ignoredCodes] := rfl

/-- C2: for every option sequence, `toLegacyIgnored` yields the omitted
(nil) representation exactly when the accumulated ignored-code list is
empty, and otherwise exactly one group equal to that list; it never yields
an explicit empty group and never more than one group. -/
theorem C2_toLegacyIgnored_shape (opts : CallOpts) :
    ((buildCallOptions opts).ignoredCodes = [] ↔ toLegacyIgnored opts = none) ∧
    (toLegacyIgnored opts = none ∨
      toLegacyIgnored opts = some [(buildCallOptions opts).ignoredCodes]) ∧
    (∀ gs, toLegacyIgnored opts = some gs →
      gs = [(buildCallOptions opts).ignoredCodes] ∧ gs.length = 1 ∧
        ∀ g ∈ gs, g ≠ []) := by
  rw [toLegacyIgnored_eq]
  by_cases h : (buildCallOptions opts).ignoredCodes.length = 0
  · have he : (buildCallOptions opts).ignoredCodes = [] := List.length_eq_zero.mp h
    simp [h, he]
  · have hne : (buildCallOptions opts).ignoredCodes ≠ [] := by
      intro he
      exact h (by simp [he])
    refine ⟨by simp [h, hne], by simp [h], ?_⟩
    intro gs hgs
    rw [if_neg h] at hgs
    cases hgs
    exact ⟨rfl, rfl, by simpa using hne⟩

/-- C2 witness: concrete instances of the `toLegacyIgnored` shape. -/
theorem C2_toLegacyIgnored_shape_witness :
    toLegacyIgnored ([] : CallOpts) = none ∧
    ([[5]] = [(buildCallOptions [WithIgnoredCodes [5]]).ignoredCodes] ∧
      ([[5]] : List (List ErrCode)).length = 1 ∧
      ∀ g ∈ ([[5]] : List (List ErrCode)), g ≠ []) :=
  ⟨(C2_toLegacyIgnored_shape []).1.mp (by decide),
   (C2_toLegacyIgnored_shape [WithIgnoredCodes [5]]).2.2 [[5]] (by decide)⟩

/-- C3: options built from `WithIgnoredCodes` accumulate their codes by
concatenation in application order, duplicates preserved, and yield the
empty list when no option contributed a code. -/
theorem C3_option_accumulation :
    (∀ codess : List (List ErrCode),
      (buildCallOptions (codess.map WithIgnoredCodes)).ignoredCodes =
        codess.flatten) ∧
    (∀ cs : List ErrCode,
      (buildCallOptions [WithIgnoredCodes cs, WithIgnoredCodes cs]).ignoredCodes =
        cs ++ cs) ∧
    (∀ codess : List (List ErrCode), (∀ cs ∈ codess, cs = []) →
      (buildCallOptions (codess.map WithIgnoredCodes)).ignoredCodes = []) := by
  have key : ∀ codess : List (List ErrCode),
      (buildCallOptions (codess.map WithIgnoredCodes)).ignoredCodes =
        codess.flatten := by
    intro codess
    unfold buildCallOptions
    rw [foldl_applyOpt_map_withIgnoredCodes]
    simp
  refine ⟨key, ?_, ?_⟩
  · intro cs
    simpa using key [cs, cs]
  · intro codess h
    rw [key codess]
    induction codess with
    | nil => rfl
    | cons c cs ih =>
      rcases List.forall_mem_cons.mp h with ⟨hc, hcs⟩
      simp [hc, ih hcs]

/-- C3 witness: a concrete accumulation with a duplicate, and a concrete
no-contribution sequence. -/
theorem C3_option_accumulation_witness :
    (buildCallOptions ([[1, 2], [2]].map WithIgnoredCodes)).ignoredCodes =
      [1, 2, 2] ∧
    (buildCallOptions ([[], []].map WithIgnoredCodes)).ignoredCodes = [] :=
  ⟨(C3_option_accumulation.1 [[1, 2], [2]]).trans (by decide),
   C3_option_accumulation.2.2 [[], []] (by decide)⟩

/-- C4: a nil `CallOption` at any position is a no-op for
`buildCallOptions`, and a list of only nil options yields the zero
configuration. -/
theorem C4_nil_option_noop :
    (∀ pre post : CallOpts,
      buildCallOptions (pre ++ (none : CallOption) :: post) =
        buildCallOptions (pre ++ post)) ∧
    (∀ n : ℕ, buildCallOptions (List.replicate n (none : CallOption)) =
      { ignoredCodes := [] }) := by
  constructor
  · intro pre post
    unfold buildCallOptions
    rw [List.foldl_append, List.foldl_append, List.foldl_cons]
    rfl
  · intro n
    induction n with
    | zero => rfl
    | succ k ih =>
      rw [List.replicate_succ]
      unfold buildCallOptions at ih ⊢
      rw [List.foldl_cons]
      exact ih

/-- C8: the option mechanism is total and panic-free — the panic-aware
embeddings of `buildCallOptions` and `toLegacyIgnored` return a value on
every option list (nil entries and empty lists included) and never hit the
error branch. -/
theorem C8_option_mechanism_total (opts : CallOpts) :
    buildCallOptionsE opts = Except.ok (buildCallOptions opts) ∧
    toLegacyIgnoredE opts = Except.ok (toLegacyIgnored opts) := by
  constructor
  · exact buildGo_ok opts { ignoredCodes := [] }
  · unfold toLegacyIgnoredE buildCallOptionsE
    rw [buildGo_ok]
    rfl

/-- C10: `WithIgnoredCodes` with zero codes is a valid non-nil option whose
application changes nothing, and on its own still yields the omitted (nil)
transport form. -/
theorem C10_empty_withignoredcodes_noop :
    WithIgnoredCodes [] ≠ (none : CallOption) ∧
    (∀ pre post : CallOpts,
      buildCallOptions (pre ++ WithIgnoredCodes [] :: post) =
        buildCallOptions (pre ++ post)) ∧
    toLegacyIgnored [WithIgnoredCodes []] = none := by
  refine ⟨by simp [WithIgnoredCodes], ?_, rfl⟩
  intro pre post
  unfold buildCallOptions
  rw [List.foldl_append, List.foldl_append, List.foldl_cons]
  have hstep : applyOpt (List.foldl applyOpt { ignoredCodes := [] } pre)
      (WithIgnoredCodes []) = List.foldl applyOpt { ignoredCodes := [] } pre := by
    simp [applyOpt, WithIgnoredCodes]
  rw [hstep]

/-- C10 witness: inserting `WithIgnoredCodes []` between two concrete
options leaves the built configuration unchanged. -/
theorem C10_empty_withignoredcodes_noop_witness :
    buildCallOptions [WithIgnoredCodes [7], WithIgnoredCodes [], WithIgnoredCodes [8]] =
      buildCallOptions [WithIgnoredCodes [7], WithIgnoredCodes [8]] :=
  C10_empty_withignoredcodes_noop.2.1 [WithIgnoredCodes [7]] [WithIgnoredCodes [8]]

/-- C5: `AsV2` wraps an existing legacy client directly — the root adapter
holds that very client — and `Routes().List(ctx, 42)` on the result makes
the one legacy `ListRoutes` call with VNI 42 and the nil (no groups)
ignored-codes argument, returning its result unchanged. -/
theorem C5_asv2_routes_forward (c : LegacyClient) (ctx : Ctx) :
    AsV2 c = { legacy := c } ∧
    (AsV2 c).legacy = c ∧
    toLegacyIgnored [] = none ∧
    (AsV2 c).Routes.List ctx 42 [] =
      ([LegacyCall.ListRoutes ctx 42 none], c.ListRoutes ctx 42 none) :=
  ⟨rfl, rfl, rfl, rfl⟩

/-- C6: every resource and sub-resource accessor only constructs a fresh
handle carrying the same shared client reference (so repeated accessor
calls yield equal handles and no accessor can perform I/O — accessors
return a bare handle and no `LegacyCall` trace), and invoking an operation
after navigation equals invoking it on the directly constructed handle. -/
theorem C6_accessor_handles (r : rootAdapter) :
    r.LoadBalancers = { legacy := r.legacy } ∧
    r.Interfaces = { legacy := r.legacy } ∧
    r.Routes = { legacy := r.legacy } ∧
    r.NATs = { legacy := r.legacy } ∧
    r.Firewall = { legacy := r.legacy } ∧
    r.System = { legacy := r.legacy } ∧
    r.Capture = { legacy := r.legacy } ∧
    r.LoadBalancers.Prefixes = { legacy := r.legacy } ∧
    r.LoadBalancers.Targets = { legacy := r.legacy } ∧
    r.Interfaces.VIP = { legacy := r.legacy } ∧
    r.Interfaces.Prefixes = { legacy := r.legacy } ∧
    r.Interfaces.Firewall = { legacy := r.legacy } ∧
    (∀ (ctx : Ctx) (interfaceID : String) (opts : CallOpts),
      (r.Interfaces.Firewall).List ctx interfaceID opts =
        fwClient.List { legacy := r.legacy } ctx interfaceID opts) ∧
    (∀ (ctx : Ctx) (vni : ℕ) (opts : CallOpts),
      (r.Routes).List ctx vni opts =
        routeClient.List { legacy := r.legacy } ctx vni opts) :=
  ⟨rfl, rfl, rfl, rfl, rfl, rfl, rfl, rfl, rfl, rfl, rfl, rfl,
   fun _ _ _ => rfl, fun _ _ _ => rfl⟩

/-- C7: every handle type holds exactly one piece of state — the legacy
client reference (two handles agreeing on it are equal) — and every handle
derived from a root adapter through any accessor chain carries the root's
reference unchanged. -/
theorem C7_handle_single_state :
    (∀ a b : rootAdapter, a.legacy = b.legacy → a = b) ∧
    (∀ a b : lbClient, a.legacy = b.legacy → a = b) ∧
    (∀ a b : lbPrefixesClient, a.legacy = b.legacy → a = b) ∧
    (∀ a b : lbTargetsClient, a.legacy = b.legacy → a = b) ∧
    (∀ a b : ifaceClient, a.legacy = b.legacy → a = b) ∧
    (∀ a b : vipClient, a.legacy = b.legacy → a = b) ∧
    (∀ a b : ifacePrefixesClient, a.legacy = b.legacy → a = b) ∧
    (∀ a b : routeClient, a.legacy = b.legacy → a = b) ∧
    (∀ a b : natClient, a.legacy = b.legacy → a = b) ∧
    (∀ a b : fwClient, a.legacy = b.legacy → a = b) ∧
    (∀ a b : systemClient, a.legacy = b.legacy → a = b) ∧
    (∀ a b : captureClient, a.legacy = b.legacy → a = b) ∧
    (∀ r : rootAdapter,
      (r.LoadBalancers).legacy = r.legacy ∧
      (r.LoadBalancers.Prefixes).legacy = r.legacy ∧
      (r.LoadBalancers.Targets).legacy = r.legacy ∧
      (r.Interfaces).legacy = r.legacy ∧
      (r.Interfaces.VIP).legacy = r.legacy ∧
      (r.Interfaces.Prefixes).legacy = r.legacy ∧
      (r.Interfaces.Firewall).legacy = r.legacy ∧
      (r.Routes).legacy = r.legacy ∧
      (r.NATs).legacy = r.legacy ∧
      (r.Firewall).legacy = r.legacy ∧
      (r.System).legacy = r.legacy ∧
      (r.Capture).legacy = r.legacy) := by
  refine ⟨?_, ?_, ?_, ?_, ?_, ?_, ?_, ?_, ?_, ?_, ?_, ?_, ?_⟩
  case _ => intro a b h; cases a; cases b; simp_all
  case _ => intro a b h; cases a; cases b; simp_all
  case _ => intro a b h; cases a; cases b; simp_all
  case _ => intro a b h; cases a; cases b; simp_all
  case _ => intro a b h; cases a; cases b; simp_all
  case _ => intro a b h; cases a; cases b; simp_all
  case _ => intro a b h; cases a; cases b; simp_all
  case _ => intro a b h; cases a; cases b; simp_all
  case _ => intro a b h; cases a; cases b; simp_all
  case _ => intro a b h; cases a; cases b; simp_all
  case _ => intro a b h; cases a; cases b; simp_all
  case _ => intro a b h; cases a; cases b; simp_all
  case _ =>
    intro r
    exact ⟨rfl, rfl, rfl, rfl, rfl, rfl, rfl, rfl, rfl, rfl, rfl, rfl⟩

/-- C7 witness: the single-state property applied at a concrete pair of
handles over the trivial legacy client. -/
theorem C7_handle_single_state_witness :
    ({ legacy := trivialLegacy } : lbClient) = { legacy := trivialLegacy } :=
  C7_handle_single_state.2.1 { legacy := trivialLegacy } { legacy := trivialLegacy } rfl

/-- C9: the firewall handle reached via `Client.Firewall()` and via
`Interfaces().Firewall()` on the same root is the same handle, and each of
its four operations makes the same legacy call and returns the same result
by either path. -/
theorem C9_firewall_two_paths (r : rootAdapter) :
    r.Firewall = r.Interfaces.Firewall ∧
    (∀ (ctx : Ctx) (interfaceID : String) (opts : CallOpts),
      (r.Firewall).List ctx interfaceID opts =
        (r.Interfaces.Firewall).List ctx interfaceID opts) ∧
    (∀ (ctx : Ctx) (interfaceID ruleID : String) (opts : CallOpts),
      (r.Firewall).Get ctx interfaceID ruleID opts =
        (r.Interfaces.Firewall).Get ctx interfaceID ruleID opts) ∧
    (∀ (ctx : Ctx) (rule : api.FirewallRule) (opts : CallOpts),
      (r.Firewall).Create ctx rule opts =
        (r.Interfaces.Firewall).Create ctx rule opts) ∧
    (∀ (ctx : Ctx) (interfaceID ruleID : String) (opts : CallOpts),
      (r.Firewall).Delete ctx interfaceID ruleID opts =
        (r.Interfaces.Firewall).Delete ctx interfaceID ruleID opts) :=
  ⟨rfl, fun _ _ _ => rfl, fun _ _ _ _ => rfl, fun _ _ _ => rfl, fun _ _ _ _ => rfl⟩

/-- C1 (amended): every declared operation on every handle makes exactly
one legacy-client call and returns its result and error unchanged; every
operation passes its context, its required parameters in order, and
`toLegacyIgnored` of its options, and — the one deviation from the claim —
`NATs.ListAny` additionally passes the constant NAT-type selector `"any"`
between its required parameter and the ignored-codes argument. -/
theorem C1_forwarding_amended (r : rootAdapter) :
    (∀ (ctx : Ctx) (id : String) (opts : CallOpts),
      r.LoadBalancers.Get ctx id opts =
        ([LegacyCall.GetLoadBalancer ctx id (toLegacyIgnored opts)],
         r.legacy.GetLoadBalancer ctx id (toLegacyIgnored opts)) ∧
      (LegacyCall.GetLoadBalancer ctx id (toLegacyIgnored opts)).args =
        [Arg.ctx ctx, Arg.str id, Arg.ignored (toLegacyIgnored opts)]) ∧
    (∀ (ctx : Ctx) (opts : CallOpts),
      r.LoadBalancers.List ctx opts =
        ([LegacyCall.ListLoadBalancers ctx (toLegacyIgnored opts)],
         r.legacy.ListLoadBalancers ctx (toLegacyIgnored opts)) ∧
      (LegacyCall.ListLoadBalancers ctx (toLegacyIgnored opts)).args =
        [Arg.ctx ctx, Arg.ignored (toLegacyIgnored opts)]) ∧
    (∀ (ctx : Ctx) (lb : api.LoadBalancer) (opts : CallOpts),
      r.LoadBalancers.Create ctx lb opts =
        ([LegacyCall.CreateLoadBalancer ctx lb (toLegacyIgnored opts)],
         r.legacy.CreateLoadBalancer ctx lb (toLegacyIgnored opts)) ∧
      (LegacyCall.CreateLoadBalancer ctx lb (toLegacyIgnored opts)).args =
        [Arg.ctx ctx, Arg.lb lb, Arg.ignored (toLegacyIgnored opts)]) ∧
    (∀ (ctx : Ctx) (id : String) (opts : CallOpts),
      r.LoadBalancers.Delete ctx id opts =
        ([LegacyCall.DeleteLoadBalancer ctx id (toLegacyIgnored opts)],
         r.legacy.DeleteLoadBalancer ctx id (toLegacyIgnored opts)) ∧
      (LegacyCall.DeleteLoadBalancer ctx id (toLegacyIgnored opts)).args =
        [Arg.ctx ctx, Arg.str id, Arg.ignored (toLegacyIgnored opts)]) ∧
    (∀ (ctx : Ctx) (interfaceID : String) (opts : CallOpts),
      r.LoadBalancers.Prefixes.List ctx interfaceID opts =
        ([LegacyCall.ListLoadBalancerPrefixes ctx interfaceID (toLegacyIgnored opts)],
         r.legacy.ListLoadBalancerPrefixes ctx interfaceID (toLegacyIgnored opts)) ∧
      (LegacyCall.ListLoadBalancerPrefixes ctx interfaceID (toLegacyIgnored opts)).args =
        [Arg.ctx ctx, Arg.str interfaceID, Arg.ignored (toLegacyIgnored opts)]) ∧
    (∀ (ctx : Ctx) (pfx : api.LoadBalancerPrefix) (opts : CallOpts),
      r.LoadBalancers.Prefixes.Create ctx pfx opts =
        ([LegacyCall.CreateLoadBalancerPrefix ctx pfx (toLegacyIgnored opts)],
         r.legacy.CreateLoadBalancerPrefix ctx pfx (toLegacyIgnored opts)) ∧
      (LegacyCall.CreateLoadBalancerPrefix ctx pfx (toLegacyIgnored opts)).args =
        [Arg.ctx ctx, Arg.lbPfx pfx, Arg.ignored (toLegacyIgnored opts)]) ∧
    (∀ (ctx : Ctx) (interfaceID : String) (pfx : NetipPrefix) (opts : CallOpts),
      r.LoadBalancers.Prefixes.Delete ctx interfaceID pfx opts =
        ([LegacyCall.DeleteLoadBalancerPrefix ctx interfaceID pfx (toLegacyIgnored opts)],
         r.legacy.DeleteLoadBalancerPrefix ctx interfaceID pfx (toLegacyIgnored opts)) ∧
      (LegacyCall.DeleteLoadBalancerPrefix ctx interfaceID pfx (toLegacyIgnored opts)).args =
        [Arg.ctx ctx, Arg.str interfaceID, Arg.pfx pfx, Arg.ignored (toLegacyIgnored opts)]) ∧
    (∀ (ctx : Ctx) (loadBalancerID : String) (opts : CallOpts),
      r.LoadBalancers.Targets.List ctx loadBalancerID opts =
        ([LegacyCall.ListLoadBalancerTargets ctx loadBalancerID (toLegacyIgnored opts)],
         r.legacy.ListLoadBalancerTargets ctx loadBalancerID (toLegacyIgnored opts)) ∧
      (LegacyCall.ListLoadBalancerTargets ctx loadBalancerID (toLegacyIgnored opts)).args =
        [Arg.ctx ctx, Arg.str loadBalancerID, Arg.ignored (toLegacyIgnored opts)]) ∧
    (∀ (ctx : Ctx) (target : api.LoadBalancerTarget) (opts : CallOpts),
      r.LoadBalancers.Targets.Create ctx target opts =
        ([LegacyCall.CreateLoadBalancerTarget ctx target (toLegacyIgnored opts)],
         r.legacy.CreateLoadBalancerTarget ctx target (toLegacyIgnored opts)) ∧
      (LegacyCall.CreateLoadBalancerTarget ctx target (toLegacyIgnored opts)).args =
        [Arg.ctx ctx, Arg.lbTarget target, Arg.ignored (toLegacyIgnored opts)]) ∧
    (∀ (ctx : Ctx) (lbID : String) (targetIP : NetipAddr) (opts : CallOpts),
      r.LoadBalancers.Targets.Delete ctx lbID targetIP opts =
        ([LegacyCall.DeleteLoadBalancerTarget ctx lbID targetIP (toLegacyIgnored opts)],
         r.legacy.DeleteLoadBalancerTarget ctx lbID targetIP (toLegacyIgnored opts)) ∧
      (LegacyCall.DeleteLoadBalancerTarget ctx lbID targetIP (toLegacyIgnored opts)).args =
        [Arg.ctx ctx, Arg.str lbID, Arg.addr targetIP, Arg.ignored (toLegacyIgnored opts)]) ∧
    (∀ (ctx : Ctx) (id : String) (opts : CallOpts),
      r.Interfaces.Get ctx id opts =
        ([LegacyCall.GetInterface ctx id (toLegacyIgnored opts)],
         r.legacy.GetInterface ctx id (toLegacyIgnored opts)) ∧
      (LegacyCall.GetInterface ctx id (toLegacyIgnored opts)).args =
        [Arg.ctx ctx, Arg.str id, Arg.ignored (toLegacyIgnored opts)]) ∧
    (∀ (ctx : Ctx) (opts : CallOpts),
      r.Interfaces.List ctx opts =
        ([LegacyCall.ListInterfaces ctx (toLegacyIgnored opts)],
         r.legacy.ListInterfaces ctx (toLegacyIgnored opts)) ∧
      (LegacyCall.ListInterfaces ctx (toLegacyIgnored opts)).args =
        [Arg.ctx ctx, Arg.ignored (toLegacyIgnored opts)]) ∧
    (∀ (ctx : Ctx) (iface : api.Interface) (opts : CallOpts),
      r.Interfaces.Create ctx iface opts =
        ([LegacyCall.CreateInterface ctx iface (toLegacyIgnored opts)],
         r.legacy.CreateInterface ctx iface (toLegacyIgnored opts)) ∧
      (LegacyCall.CreateInterface ctx iface (toLegacyIgnored opts)).args =
        [Arg.ctx ctx, Arg.iface iface, Arg.ignored (toLegacyIgnored opts)]) ∧
    (∀ (ctx : Ctx) (id : String) (opts : CallOpts),
      r.Interfaces.Delete ctx id opts =
        ([LegacyCall.DeleteInterface ctx id (toLegacyIgnored opts)],
         r.legacy.DeleteInterface ctx id (toLegacyIgnored opts)) ∧
      (LegacyCall.DeleteInterface ctx id (toLegacyIgnored opts)).args =
        [Arg.ctx ctx, Arg.str id, Arg.ignored (toLegacyIgnored opts)]) ∧
    (∀ (ctx : Ctx) (interfaceID : String) (opts : CallOpts),
      r.Interfaces.VIP.Get ctx interfaceID opts =
        ([LegacyCall.GetVirtualIP ctx interfaceID (toLegacyIgnored opts)],
         r.legacy.GetVirtualIP ctx interfaceID (toLegacyIgnored opts)) ∧
      (LegacyCall.GetVirtualIP ctx interfaceID (toLegacyIgnored opts)).args =
        [Arg.ctx ctx, Arg.str interfaceID, Arg.ignored (toLegacyIgnored opts)]) ∧
    (∀ (ctx : Ctx) (vip : api.VirtualIP) (opts : CallOpts),
      r.Interfaces.VIP.Create ctx vip opts =
        ([LegacyCall.CreateVirtualIP ctx vip (toLegacyIgnored opts)],
         r.legacy.CreateVirtualIP ctx vip (toLegacyIgnored opts)) ∧
      (LegacyCall.CreateVirtualIP ctx vip (toLegacyIgnored opts)).args =
        [Arg.ctx ctx, Arg.vip vip, Arg.ignored (toLegacyIgnored opts)]) ∧
    (∀ (ctx : Ctx) (interfaceID : String) (opts : CallOpts),
      r.Interfaces.VIP.Delete ctx interfaceID opts =
        ([LegacyCall.DeleteVirtualIP ctx interfaceID (toLegacyIgnored opts)],
         r.legacy.DeleteVirtualIP ctx interfaceID (toLegacyIgnored opts)) ∧
      (LegacyCall.DeleteVirtualIP ctx interfaceID (toLegacyIgnored opts)).args =
        [Arg.ctx ctx, Arg.str interfaceID, Arg.ignored (toLegacyIgnored opts)]) ∧
    (∀ (ctx : Ctx) (interfaceID : String) (opts : CallOpts),
      r.Interfaces.Prefixes.List ctx interfaceID opts =
        ([LegacyCall.ListPrefixes ctx interfaceID (toLegacyIgnored opts)],
         r.legacy.ListPrefixes ctx interfaceID (toLegacyIgnored opts)) ∧
      (LegacyCall.ListPrefixes ctx interfaceID (toLegacyIgnored opts)).args =
        [Arg.ctx ctx, Arg.str interfaceID, Arg.ignored (toLegacyIgnored opts)]) ∧
    (∀ (ctx : Ctx) (pfx : api.Prefix) (opts : CallOpts),
      r.Interfaces.Prefixes.Create ctx pfx opts =
        ([LegacyCall.CreatePrefix ctx pfx (toLegacyIgnored opts)],
         r.legacy.CreatePrefix ctx pfx (toLegacyIgnored opts)) ∧
      (LegacyCall.CreatePrefix ctx pfx (toLegacyIgnored opts)).args =
        [Arg.ctx ctx, Arg.apiPfx pfx, Arg.ignored (toLegacyIgnored opts)]) ∧
    (∀ (ctx : Ctx) (interfaceID : String) (pfx : NetipPrefix) (opts : CallOpts),
      r.Interfaces.Prefixes.Delete ctx interfaceID pfx opts =
        ([LegacyCall.DeletePrefix ctx interfaceID pfx (toLegacyIgnored opts)],
         r.legacy.DeletePrefix ctx interfaceID pfx (toLegacyIgnored opts)) ∧
      (LegacyCall.DeletePrefix ctx interfaceID pfx (toLegacyIgnored opts)).args =
        [Arg.ctx ctx, Arg.str interfaceID, Arg.pfx pfx, Arg.ignored (toLegacyIgnored opts)]) ∧
    (∀ (ctx : Ctx) (vni : ℕ) (opts : CallOpts),
      r.Routes.List ctx vni opts =
        ([LegacyCall.ListRoutes ctx vni (toLegacyIgnored opts)],
         r.legacy.ListRoutes ctx vni (toLegacyIgnored opts)) ∧
      (LegacyCall.ListRoutes ctx vni (toLegacyIgnored opts)).args =
        [Arg.ctx ctx, Arg.u32 vni, Arg.ignored (toLegacyIgnored opts)]) ∧
    (∀ (ctx : Ctx) (route : api.Route) (opts : CallOpts),
      r.Routes.Create ctx route opts =
        ([LegacyCall.CreateRoute ctx route (toLegacyIgnored opts)],
         r.legacy.CreateRoute ctx route (toLegacyIgnored opts)) ∧
      (LegacyCall.CreateRoute ctx route (toLegacyIgnored opts)).args =
        [Arg.ctx ctx, Arg.route route, Arg.ignored (toLegacyIgnored opts)]) ∧
    (∀ (ctx : Ctx) (vni : ℕ) (pfx : NetipPrefix) (opts : CallOpts),
      r.Routes.Delete ctx vni pfx opts =
        ([LegacyCall.DeleteRoute ctx vni pfx (toLegacyIgnored opts)],
         r.legacy.DeleteRoute ctx vni pfx (toLegacyIgnored opts)) ∧
      (LegacyCall.DeleteRoute ctx vni pfx (toLegacyIgnored opts)).args =
        [Arg.ctx ctx, Arg.u32 vni, Arg.pfx pfx, Arg.ignored (toLegacyIgnored opts)]) ∧
    (∀ (ctx : Ctx) (interfaceID : String) (opts : CallOpts),
      r.NATs.Get ctx interfaceID opts =
        ([LegacyCall.GetNat ctx interfaceID (toLegacyIgnored opts)],
         r.legacy.GetNat ctx interfaceID (toLegacyIgnored opts)) ∧
      (LegacyCall.GetNat ctx interfaceID (toLegacyIgnored opts)).args =
        [Arg.ctx ctx, Arg.str interfaceID, Arg.ignored (toLegacyIgnored opts)]) ∧
    (∀ (ctx : Ctx) (nat : api.Nat) (opts : CallOpts),
      r.NATs.Create ctx nat opts =
        ([LegacyCall.CreateNat ctx nat (toLegacyIgnored opts)],
         r.legacy.CreateNat ctx nat (toLegacyIgnored opts)) ∧
      (LegacyCall.CreateNat ctx nat (toLegacyIgnored opts)).args =
        [Arg.ctx ctx, Arg.nat nat, Arg.ignored (toLegacyIgnored opts)]) ∧
    (∀ (ctx : Ctx) (interfaceID : String) (opts : CallOpts),
      r.NATs.Delete ctx interfaceID opts =
        ([LegacyCall.DeleteNat ctx interfaceID (toLegacyIgnored opts)],
         r.legacy.DeleteNat ctx interfaceID (toLegacyIgnored opts)) ∧
      (LegacyCall.DeleteNat ctx interfaceID (toLegacyIgnored opts)).args =
        [Arg.ctx ctx, Arg.str interfaceID, Arg.ignored (toLegacyIgnored opts)]) ∧
    (∀ (ctx : Ctx) (natIP : NetipAddr) (opts : CallOpts),
      r.NATs.ListAny ctx natIP opts =
        ([LegacyCall.ListNats ctx natIP "any" (toLegacyIgnored opts)],
         r.legacy.ListNats ctx natIP "any" (toLegacyIgnored opts)) ∧
      (LegacyCall.ListNats ctx natIP "any" (toLegacyIgnored opts)).args =
        [Arg.ctx ctx, Arg.addr natIP, Arg.str "any", Arg.ignored (toLegacyIgnored opts)]) ∧
    (∀ (ctx : Ctx) (natIP : NetipAddr) (opts : CallOpts),
      r.NATs.ListLocal ctx natIP opts =
        ([LegacyCall.ListLocalNats ctx natIP (toLegacyIgnored opts)],
         r.legacy.ListLocalNats ctx natIP (toLegacyIgnored opts)) ∧
      (LegacyCall.ListLocalNats ctx natIP (toLegacyIgnored opts)).args =
        [Arg.ctx ctx, Arg.addr natIP, Arg.ignored (toLegacyIgnored opts)]) ∧
    (∀ (ctx : Ctx) (natIP : NetipAddr) (opts : CallOpts),
      r.NATs.ListNeighbors ctx natIP opts =
        ([LegacyCall.ListNeighborNats ctx natIP (toLegacyIgnored opts)],
         r.legacy.ListNeighborNats ctx natIP (toLegacyIgnored opts)) ∧
      (LegacyCall.ListNeighborNats ctx natIP (toLegacyIgnored opts)).args =
        [Arg.ctx ctx, Arg.addr natIP, Arg.ignored (toLegacyIgnored opts)]) ∧
    (∀ (ctx : Ctx) (n : api.NeighborNat) (opts : CallOpts),
      r.NATs.CreateNeighbor ctx n opts =
        ([LegacyCall.CreateNeighborNat ctx n (toLegacyIgnored opts)],
         r.legacy.CreateNeighborNat ctx n (toLegacyIgnored opts)) ∧
      (LegacyCall.CreateNeighborNat ctx n (toLegacyIgnored opts)).args =
        [Arg.ctx ctx, Arg.neighborNat n, Arg.ignored (toLegacyIgnored opts)]) ∧
    (∀ (ctx : Ctx) (n : api.NeighborNat) (opts : CallOpts),
      r.NATs.DeleteNeighbor ctx n opts =
        ([LegacyCall.DeleteNeighborNat ctx n (toLegacyIgnored opts)],
         r.legacy.DeleteNeighborNat ctx n (toLegacyIgnored opts)) ∧
      (LegacyCall.DeleteNeighborNat ctx n (toLegacyIgnored opts)).args =
        [Arg.ctx ctx, Arg.neighborNat n, Arg.ignored (toLegacyIgnored opts)]) ∧
    (∀ (ctx : Ctx) (interfaceID : String) (opts : CallOpts),
      r.Firewall.List ctx interfaceID opts =
        ([LegacyCall.ListFirewallRules ctx interfaceID (toLegacyIgnored opts)],
         r.legacy.ListFirewallRules ctx interfaceID (toLegacyIgnored opts)) ∧
      (LegacyCall.ListFirewallRules ctx interfaceID (toLegacyIgnored opts)).args =
        [Arg.ctx ctx, Arg.str interfaceID, Arg.ignored (toLegacyIgnored opts)]) ∧
    (∀ (ctx : Ctx) (interfaceID : String) (ruleID : String) (opts : CallOpts),
      r.Firewall.Get ctx interfaceID ruleID opts =
        ([LegacyCall.GetFirewallRule ctx interfaceID ruleID (toLegacyIgnored opts)],
         r.legacy.GetFirewallRule ctx interfaceID ruleID (toLegacyIgnored opts)) ∧
      (LegacyCall.GetFirewallRule ctx interfaceID ruleID (toLegacyIgnored opts)).args =
        [Arg.ctx ctx, Arg.str interfaceID, Arg.str ruleID, Arg.ignored (toLegacyIgnored opts)]) ∧
    (∀ (ctx : Ctx) (rule : api.FirewallRule) (opts : CallOpts),
      r.Firewall.Create ctx rule opts =
        ([LegacyCall.CreateFirewallRule ctx rule (toLegacyIgnored opts)],
         r.legacy.CreateFirewallRule ctx rule (toLegacyIgnored opts)) ∧
      (LegacyCall.CreateFirewallRule ctx rule (toLegacyIgnored opts)).args =
        [Arg.ctx ctx, Arg.fwRule rule, Arg.ignored (toLegacyIgnored opts)]) ∧
    (∀ (ctx : Ctx) (interfaceID : String) (ruleID : String) (opts : CallOpts),
      r.Firewall.Delete ctx interfaceID ruleID opts =
        ([LegacyCall.DeleteFirewallRule ctx interfaceID ruleID (toLegacyIgnored opts)],
         r.legacy.DeleteFirewallRule ctx interfaceID ruleID (toLegacyIgnored opts)) ∧
      (LegacyCall.DeleteFirewallRule ctx interfaceID ruleID (toLegacyIgnored opts)).args =
        [Arg.ctx ctx, Arg.str interfaceID, Arg.str ruleID, Arg.ignored (toLegacyIgnored opts)]) ∧
    (∀ (ctx : Ctx) (opts : CallOpts),
      r.System.CheckInitialized ctx opts =
        ([LegacyCall.CheckInitialized ctx (toLegacyIgnored opts)],
         r.legacy.CheckInitialized ctx (toLegacyIgnored opts)) ∧
      (LegacyCall.CheckInitialized ctx (toLegacyIgnored opts)).args =
        [Arg.ctx ctx, Arg.ignored (toLegacyIgnored opts)]) ∧
    (∀ (ctx : Ctx) (opts : CallOpts),
      r.System.Initialize ctx opts =
        ([LegacyCall.Initialize ctx (toLegacyIgnored opts)],
         r.legacy.Initialize ctx (toLegacyIgnored opts)) ∧
      (LegacyCall.Initialize ctx (toLegacyIgnored opts)).args =
        [Arg.ctx ctx, Arg.ignored (toLegacyIgnored opts)]) ∧
    (∀ (ctx : Ctx) (vni : ℕ) (vniType : ℕ) (opts : CallOpts),
      r.System.GetVni ctx vni vniType opts =
        ([LegacyCall.GetVni ctx vni vniType (toLegacyIgnored opts)],
         r.legacy.GetVni ctx vni vniType (toLegacyIgnored opts)) ∧
      (LegacyCall.GetVni ctx vni vniType (toLegacyIgnored opts)).args =
        [Arg.ctx ctx, Arg.u32 vni, Arg.u8 vniType, Arg.ignored (toLegacyIgnored opts)]) ∧
    (∀ (ctx : Ctx) (vni : ℕ) (vniType : ℕ) (opts : CallOpts),
      r.System.ResetVni ctx vni vniType opts =
        ([LegacyCall.ResetVni ctx vni vniType (toLegacyIgnored opts)],
         r.legacy.ResetVni ctx vni vniType (toLegacyIgnored opts)) ∧
      (LegacyCall.ResetVni ctx vni vniType (toLegacyIgnored opts)).args =
        [Arg.ctx ctx, Arg.u32 vni, Arg.u8 vniType, Arg.ignored (toLegacyIgnored opts)]) ∧
    (∀ (ctx : Ctx) (version : api.Version) (opts : CallOpts),
      r.System.GetVersion ctx version opts =
        ([LegacyCall.GetVersion ctx version (toLegacyIgnored opts)],
         r.legacy.GetVersion ctx version (toLegacyIgnored opts)) ∧
      (LegacyCall.GetVersion ctx version (toLegacyIgnored opts)).args =
        [Arg.ctx ctx, Arg.version version, Arg.ignored (toLegacyIgnored opts)]) ∧
    (∀ (ctx : Ctx) (capture : api.CaptureStart) (opts : CallOpts),
      r.Capture.Start ctx capture opts =
        ([LegacyCall.CaptureStart ctx capture (toLegacyIgnored opts)],
         r.legacy.CaptureStart ctx capture (toLegacyIgnored opts)) ∧
      (LegacyCall.CaptureStart ctx capture (toLegacyIgnored opts)).args =
        [Arg.ctx ctx, Arg.captureStart capture, Arg.ignored (toLegacyIgnored opts)]) ∧
    (∀ (ctx : Ctx) (opts : CallOpts),
      r.Capture.Stop ctx opts =
        ([LegacyCall.CaptureStop ctx (toLegacyIgnored opts)],
         r.legacy.CaptureStop ctx (toLegacyIgnored opts)) ∧
      (LegacyCall.CaptureStop ctx (toLegacyIgnored opts)).args =
        [Arg.ctx ctx, Arg.ignored (toLegacyIgnored opts)]) ∧
    (∀ (ctx : Ctx) (opts : CallOpts),
      r.Capture.Status ctx opts =
        ([LegacyCall.CaptureStatus ctx (toLegacyIgnored opts)],
         r.legacy.CaptureStatus ctx (toLegacyIgnored opts)) ∧
      (LegacyCall.CaptureStatus ctx (toLegacyIgnored opts)).args =
        [Arg.ctx ctx, Arg.ignored (toLegacyIgnored opts)]) := by
  refine ⟨?_, ?_, ?_, ?_, ?_, ?_, ?_, ?_, ?_, ?_, ?_, ?_, ?_, ?_, ?_, ?_, ?_, ?_, ?_, ?_, ?_, ?_, ?_, ?_, ?_, ?_, ?_, ?_, ?_, ?_, ?_, ?_, ?_, ?_, ?_, ?_, ?_, ?_, ?_, ?_, ?_, ?_, ?_⟩ <;> intros <;> exact ⟨rfl, rfl⟩

/-- C1 counterexample: at the concrete input — a NAT handle over the
trivial legacy client, context 0, NAT IP 0, no options — `ListAny` makes
exactly one legacy `ListNats` call, but that call's argument list is not
"context, the supplied parameters, and the ignored-codes argument": the
facade inserts the extra constant `"any"`, refuting the claim that every
operation passes the same `P` together with `toLegacyIgnored(O)` with
nothing added. -/
theorem C1_listany_counterexample :
    (natClient.ListAny { legacy := trivialLegacy } ⟨0⟩ ⟨0⟩ []).1 =
      [LegacyCall.ListNats ⟨0⟩ ⟨0⟩ "any" none] ∧
    (LegacyCall.ListNats ⟨0⟩ ⟨0⟩ "any" none).args ≠
      [Arg.ctx ⟨0⟩, Arg.addr ⟨0⟩, Arg.ignored none] :=
  ⟨rfl, by decide⟩
